import Mathlib

/-!
# Verification of the weather-sampling orchestration core

Shallow embedding of the repository `test_Weather`:

* `src/src/API_manager.py` — pure conversion helpers
  (`determine_type_precipitation`, `convert_degrees_to_direction`);
  Python floats are embedded as rationals (`ℚ`), Python `round` as
  round-half-to-even (`roundHalfEven`), Python `%` on ints as `Int.emod`.
* `src/src/DB_manager.py` — the store, embedded as a list of records in
  insertion order; `get_all_weather_data` (a `select` over the whole
  table, each row turned into a dict by `to_dict`) returns that list.
* `src/src/Excel_manager.py` — the exporter; a sheet is a list of rows
  (row 1 is the header row), `create_excel_file` builds a workbook whose
  sheet holds only the headers and saves it, `add_weather_data_to_excel`
  appends one row per record starting at `max_row + 1` and saves.
* `src/src/utils.py` — the scheduler loop `fetch_and_store_weather_data`
  and the command loop `menu`, embedded as trace-producing functions over
  an environment that injects collaborator failures and the times at
  which the shutdown event is raised.
* `src/main.py` — the shared `asyncio.Event` (`stop_event`), embedded as
  a boolean cell whose only writer calls `set()` (the program never calls
  `clear()`), so the cell is monotone.
-/

namespace Weather

/-! ## Data model (`WeatherDataModel.to_dict`, `src/src/DB_manager.py`) -/

/-- One normalized weather observation, mirroring the columns of
`WeatherDataModel` / the dict produced by `to_dict`.  Python floats are
embedded as rationals; the two datetimes are embedded as their already
formatted strings (the Excel writer formats them with `strftime` before
writing, so only their textual form reaches a sheet). -/
structure WeatherRecord where
  id : Int
  latitude : ℚ
  longitude : ℚ
  timezone : String
  utc_offset_seconds : Int
  datetime_request : String
  datetime_weather : String
  temperature_2m : ℚ
  precipitation : ℚ
  type_precipitation : String
  pressure_msl : ℚ
  wind_speed_10m : ℚ
  wind_direction_10m : String
  deriving DecidableEq, Repr

/-- A single spreadsheet cell value: the Python values written by
`add_weather_data_to_excel` are ints, floats or strings. -/
inductive CellVal where
  | i (n : Int)
  | q (x : ℚ)
  | s (t : String)
  deriving DecidableEq, Repr

/-- One sheet row, columns A.. in order. -/
abbrev Row := List CellVal

/-- A sheet: list of rows, row 1 first (`max_row` = length). -/
abbrev Sheet := List Row

/-! ## Store (`DBManager`, `src/src/DB_manager.py`)

The store is embedded as the list of its records in insertion (rowid)
order.  `add_weather_data` appends one record inside a transaction;
`get_all_weather_data` executes `select(WeatherDataModel)` — all rows, in
rowid order — and maps `to_dict` over them. -/

/-- `DBManager.get_all_weather_data`: returns every stored record, in
insertion order (the `select` has no filter; `to_dict` keeps all fields). -/
def get_all_weather_data (store : List WeatherRecord) : List WeatherRecord :=
  store

/-- `DBManager.add_weather_data`: appends one record to the store. -/
def add_weather_data (store : List WeatherRecord) (r : WeatherRecord) :
    List WeatherRecord :=
  store ++ [r]

/-! ## Exporter (`ExcelManager`, `src/src/Excel_manager.py`) -/

/-- The header strings written into row 1, columns A–M, by
`create_excel_file`. -/
def headers : List String :=
  ["№",
   "Широта",
   "Долгота",
   "Часовой пояс",
   "Смещение часового пояса",
   "Дата и время запроса данных",
   "Дата и время измерения погоды",
   "Температура воздуха (°C)",
   "Количество осадков (мм)",
   "Тип осадков",
   "Атмосферное давление (мм рт.ст.)",
   "Скорость ветра (m/s)",
   "Направление ветра"]

/-- Row 1 of a freshly created workbook. -/
def headerRow : Row := headers.map CellVal.s

/-- The `ExcelManager` object state: the in-memory sheet
(`self.workbook`/`self.sheet`, `none` until `create_excel_file` runs) and
the contents last saved to the current file (`workbook.save(file_name)`). -/
structure ExcelState where
  sheet : Option Sheet
  file : Option Sheet
  deriving DecidableEq, Repr

/-- `ExcelManager.__init__`: workbook, sheet and file name start as `None`. -/
def excelInit : ExcelState := ⟨none, none⟩

/-- `ExcelManager.create_excel_file`: builds a new workbook whose sheet
holds exactly the header row and saves it to a fresh timestamp-named
file.  The prior state is discarded. -/
def create_excel_file (_ : ExcelState) : ExcelState :=
  { sheet := some [headerRow], file := some [headerRow] }

/-- The thirteen cells written for one record into columns A–M of a data
row by `add_weather_data_to_excel` (A=`id`, B=`latitude`, C=`longitude`,
D=`timezone`, E=`utc_offset_seconds`, F=`datetime_request`,
G=`datetime_weather`, H=`temperature_2m`, I=`precipitation`,
J=`type_precipitation`, K=`pressure_msl`, L=`wind_speed_10m`,
M=`wind_direction_10m`). -/
def recordToRow (r : WeatherRecord) : Row :=
  [CellVal.i r.id,
   CellVal.q r.latitude,
   CellVal.q r.longitude,
   CellVal.s r.timezone,
   CellVal.i r.utc_offset_seconds,
   CellVal.s r.datetime_request,
   CellVal.s r.datetime_weather,
   CellVal.q r.temperature_2m,
   CellVal.q r.precipitation,
   CellVal.s r.type_precipitation,
   CellVal.q r.pressure_msl,
   CellVal.q r.wind_speed_10m,
   CellVal.s r.wind_direction_10m]

/-- Errors the export collaborators can raise. `excelNotCreated` is the
`ValueError("Файл Excel не был создан.")` raised by
`add_weather_data_to_excel` when no workbook exists. -/
inductive ExportError where
  | createFailed
  | readFailed
  | writeFailed
  | excelNotCreated
  deriving DecidableEq, Repr

/-- `ExcelManager.add_weather_data_to_excel`: raises `ValueError` if no
workbook/sheet was created; otherwise writes, for each record in order,
one row of thirteen cells starting at row `max_row + 1` (so the rows fill
positions `length+1, length+2, …` contiguously — an append), then saves
the workbook to the current file. -/
def add_weather_data_to_excel (st : ExcelState)
    (weather_data : List WeatherRecord) : Except ExportError ExcelState :=
  match st.sheet with
  | none => .error .excelNotCreated
  | some s =>
      let s' := s ++ weather_data.map recordToRow
      .ok { sheet := some s', file := some s' }

/-! ## Pure conversions (`APIManager`, `src/src/API_manager.py`) -/

/-- `APIManager.determine_type_precipitation`, branch for branch:
the first guard `rain > 0 and snow > 0` returns `"снег"`, the second
`rain > 0 and snow == 0` returns `"дождь"`, the third repeats the first
guard `rain > 0 and snow > 0` and returns `"дождь и снег"`, the `else`
returns `"отсутствуют"`. -/
def determine_type_precipitation (precipitation_rain precipitation_snow : ℚ) :
    String :=
  if precipitation_rain > 0 ∧ precipitation_snow > 0 then "снег"
  else if precipitation_rain > 0 ∧ precipitation_snow = 0 then "дождь"
  else if precipitation_rain > 0 ∧ precipitation_snow > 0 then "дождь и снег"
  else "отсутствуют"

/-- Python's built-in `round` on floats: round to the nearest integer,
ties to the even neighbour (banker's rounding). -/
def roundHalfEven (x : ℚ) : Int :=
  let n := ⌊x⌋
  if x - n < 1/2 then n
  else if x - n > 1/2 then n + 1
  else if 2 ∣ n then n else n + 1

/-- The eight compass abbreviations of
`APIManager.convert_degrees_to_direction`. -/
def directions : List String := ["С", "СВ", "В", "ЮВ", "Ю", "ЮЗ", "З", "СЗ"]

/-- `APIManager.convert_degrees_to_direction`:
`index = round(degrees / 45) % 8; return directions[index]`.  Python `%`
with a positive modulus is `Int.emod`; list indexing is embedded as
`List.get?` so that an out-of-range index would surface as `none`
(Python's `IndexError`). -/
def convert_degrees_to_direction (degrees : ℚ) : Option String :=
  directions.get? ((roundHalfEven (degrees / 45) % 8).toNat)

/-! ## The shutdown signal (`asyncio.Event`, created in `src/main.py`)

The program uses only `stop_event.is_set()` (scheduler checks) and
`stop_event.set()` (raised by `menu` on the quit command); `clear()` is
never called, so the cell is a boolean with the single operation
"set to true". -/

/-- `asyncio.Event.set`: puts the event into the raised state. -/
def eventSet (_ : Bool) : Bool := true

/-- `asyncio.Event.is_set`: reads the cell. -/
def eventIsSet (b : Bool) : Bool := b

/-! ## The command loop (`menu`, `src/src/utils.py` lines 61–88)

`menu` is embedded as a function over the finite list of input lines the
operator will type.  Stdin closing (after the last line, `input()` raises
`EOFError`) and collaborator failures during an export are the
environment's nondeterminism: `MenuEnv` says, for the `k`-th export
attempt, whether `create_excel_file`, `get_all_weather_data` or
`add_weather_data_to_excel` raises.  `menu` itself has no
`try`/`except`, so any such exception propagates out of the loop — the
run result records it as the `raised` outcome. -/

/-- Abstract output events for the `print` calls inside `menu`. -/
inductive OutEvent where
  | menuPrompt
  | exportStart
  | exportDone
  | exitMsg
  | invalidMsg
  deriving DecidableEq, Repr

/-- How a `menu` run ends: `exited` via the quit command (`break`),
`raised e` when an exception propagates out of the loop uncaught, and
`inputClosed` when `input()` raises `EOFError` at end of input (also an
uncaught exception). -/
inductive MenuOutcome where
  | exited
  | raised (e : ExportError)
  | inputClosed
  deriving DecidableEq, Repr

/-- Mutable state visible to `menu`: the store (read by
`get_all_weather_data`; `menu` never writes it), the `ExcelManager`
state, the shared stop event, and the count of export attempts so far
(bookkeeping that indexes the environment's fault injection). -/
structure MenuState where
  store : List WeatherRecord
  excel : ExcelState
  stop : Bool
  attempts : Nat
  deriving DecidableEq, Repr

/-- Fault injection for the `k`-th export attempt: whether each of the
three collaborator calls raises. -/
structure MenuEnv where
  createFault : Nat → Bool
  readFault : Nat → Bool
  writeFault : Nat → Bool

/-- Result of running `menu` on a finite input list. -/
structure MenuRunResult where
  state : MenuState
  log : List OutEvent
  outcome : MenuOutcome

/-- The body of `menu`'s `choice == "1"` branch:
`create_excel_file()`, then `get_all_weather_data()`, then
`add_weather_data_to_excel(data)`, each subject to the environment's
fault injection.  Returns the state as mutated up to the failure point
(Python object state survives a raise) and the raised error, if any. -/
def exportOnce (env : MenuEnv) (st : MenuState) : MenuState × Option ExportError :=
  let k := st.attempts
  let st1 := { st with attempts := k + 1 }
  if env.createFault k then (st1, some .createFailed)
  else
    let st2 := { st1 with excel := create_excel_file st1.excel }
    if env.readFault k then (st2, some .readFailed)
    else
      let data := get_all_weather_data st2.store
      if env.writeFault k then (st2, some .writeFailed)
      else
        match add_weather_data_to_excel st2.excel data with
        | .error e => (st2, some e)
        | .ok ex => ({ st2 with excel := ex }, none)

/-- `menu` (`src/src/utils.py` 61–88): an infinite `while True` loop that
prints the prompt, reads one line, and dispatches on it —
`"1"` runs the export body (no `try`/`except`: a failure propagates and
ends the loop), `"2"` prints the exit message, sets the stop event and
`break`s, anything else prints the invalid-choice message and loops.
Embedded by structural recursion on the remaining input lines; an empty
input list is `input()` raising `EOFError`. -/
def menu (env : MenuEnv) : List String → MenuState → List OutEvent → MenuRunResult
  | [], st, log => ⟨st, log ++ [.menuPrompt], .inputClosed⟩
  | choice :: rest, st, log =>
    let log1 := log ++ [.menuPrompt]
    if choice = "1" then
      match exportOnce env st with
      | (st', none) => menu env rest st' (log1 ++ [.exportStart, .exportDone])
      | (st', some e) => ⟨st', log1 ++ [.exportStart], .raised e⟩
    else if choice = "2" then
      ⟨{ st with stop := eventSet st.stop }, log1 ++ [.exitMsg], .exited⟩
    else
      menu env rest st (log1 ++ [.invalidMsg])

/-! ## The scheduler (`fetch_and_store_weather_data`, `src/src/utils.py` 34–58)

The loop is embedded as a trace-producing function over an abstract
integer clock.  The environment fixes the sleep period (`frequency`), the
clock time at which the other task raises the stop event (`raiseTime`,
`none` = never; `asyncio.Event` is never cleared, so a single raise time
captures the whole monotone history), whether iteration `i`'s
fetch+persist cycle raises an exception (`cycleFails` — caught by the
loop's `try`/`except`, which prints an error message), and how long that
cycle takes (`cycleDur`).  `await asyncio.sleep(frequency)` is a plain
sleep: it always runs for the full `frequency` ticks, whatever happens to
the event meanwhile — the event is consulted only at the two explicit
`is_set()` checks.  A fuel argument bounds the length of the observed
prefix of the (potentially infinite) run. -/

/-- Scheduler environment: period, event raise time, per-cycle failure
and duration. -/
structure SchedEnv where
  frequency : Nat
  raiseTime : Option Nat
  cycleFails : Nat → Bool
  cycleDur : Nat → Nat

/-- Whether `stop_event.is_set()` returns `True` at clock time `t`. -/
def isSetAt (raiseTime : Option Nat) (t : Nat) : Bool :=
  match raiseTime with
  | none => false
  | some r => decide (r ≤ t)

/-- Observable events of one scheduler run.  `cycleOk i s` /
`cycleFailed i s`: iteration `i`'s fetch+persist cycle, started at time
`s`, succeeded / raised (the exception was caught and the error printed).
`sleepDone i s f`: the full period sleep of iteration `i`, from `s` to
`f = s + frequency`, ran to completion.  `exitTop i t`: the loop exited
at the `while not stop_event.is_set()` check of iteration `i` at time
`t`; `exitPost i t`: it exited at the post-cycle
`if stop_event.is_set(): break`. -/
inductive SchedEvent where
  | cycleOk (i : Nat) (start : Nat)
  | cycleFailed (i : Nat) (start : Nat)
  | sleepDone (i : Nat) (start finish : Nat)
  | exitTop (i : Nat) (t : Nat)
  | exitPost (i : Nat) (t : Nat)
  deriving DecidableEq, Repr

/-- `fetch_and_store_weather_data` (`src/src/utils.py` 34–58), one loop
iteration per unfolding: check the event at the loop head (raised ⇒ exit
with no cycle); run the cycle under `try`/`except` (an exception is
caught and reported, never propagated); check the event again (raised ⇒
`break` before sleeping); sleep the full period; continue at the next
iteration. -/
def fetch_and_store_weather_data (env : SchedEnv) :
    Nat → Nat → Nat → List SchedEvent
  | 0, _, _ => []
  | fuel + 1, i, t =>
    if isSetAt env.raiseTime t then [.exitTop i t]
    else
      let t' := t + env.cycleDur i
      let c := if env.cycleFails i then SchedEvent.cycleFailed i t
               else SchedEvent.cycleOk i t
      if isSetAt env.raiseTime t' then [c, .exitPost i t']
      else c :: .sleepDone i t' (t' + env.frequency) ::
             fetch_and_store_weather_data env fuel (i + 1) (t' + env.frequency)

/-- Does a trace contain the cycle event (success or caught failure) of
iteration `n`? -/
def isCycleEvent (n : Nat) : SchedEvent → Bool
  | .cycleOk i _ => i == n
  | .cycleFailed i _ => i == n
  | _ => false

/-- A trace starts iteration `n`'s fetch+persist cycle. -/
def startsCycle (tr : List SchedEvent) (n : Nat) : Bool :=
  tr.any (isCycleEvent n)

/-- Is the event one of the two loop exits? -/
def isExitEvent : SchedEvent → Bool
  | .exitTop _ _ => true
  | .exitPost _ _ => true
  | _ => false

/-- The clock time attached to an event (for cycles and sleeps, their
start time). -/
def eventTime : SchedEvent → Nat
  | .cycleOk _ s => s
  | .cycleFailed _ s => s
  | .sleepDone _ s _ => s
  | .exitTop _ t => t
  | .exitPost _ t => t

/-- Is the event the start of work (a cycle or a sleep), as opposed to a
loop exit? -/
def startsWork : SchedEvent → Bool
  | .cycleOk _ _ => true
  | .cycleFailed _ _ => true
  | .sleepDone _ _ _ => true
  | _ => false

/-! ## Concrete instances used in witnesses and counterexamples -/

/-- Fresh application state at `main` startup: empty store, no workbook,
stop event not set, no export attempted yet. -/
def menuInit : MenuState := ⟨[], excelInit, false, 0⟩

/-- Export collaborators that never fail. -/
def menuEnvOk : MenuEnv := ⟨fun _ => false, fun _ => false, fun _ => false⟩

/-- Environment in which `get_all_weather_data` raises on every export
attempt. -/
def menuEnvReadFault : MenuEnv := ⟨fun _ => false, fun _ => true, fun _ => false⟩

/-- Environment in which `create_excel_file` raises on every export
attempt. -/
def menuEnvCreateFault : MenuEnv := ⟨fun _ => true, fun _ => false, fun _ => false⟩

/-- Scheduler run in which the stop event is never raised and every
cycle's fetch/persist raises an exception. -/
def schedEnvNeverRaised : SchedEnv := ⟨1, none, fun _ => true, fun _ => 0⟩

/-- Scheduler run with period 5, instantaneous successful cycles, and the
stop event raised at time 1 — during the first sleep, which spans
times 0 to 5. -/
def schedEnvRaise1 : SchedEnv := ⟨5, some 1, fun _ => false, fun _ => 0⟩

/-- Scheduler run with period 3, failing cycles of duration 1, and the
stop event raised at time 2 — during the first sleep, which spans
times 1 to 4. -/
def schedEnvRaise2 : SchedEnv := ⟨3, some 2, fun _ => true, fun _ => 1⟩

/-! ## Helper lemmas -/

/-- `exportOnce` never writes the store and never touches the stop
event, whichever collaborator fails: `menu`'s export branch only reads
the store, and no statement in it touches `stop_event`. -/
theorem exportOnce_store_stop (env : MenuEnv) (st : MenuState) :
    (exportOnce env st).1.store = st.store ∧ (exportOnce env st).1.stop = st.stop := by
  unfold exportOnce
  dsimp only
  split_ifs
  · exact ⟨rfl, rfl⟩
  · exact ⟨rfl, rfl⟩
  · exact ⟨rfl, rfl⟩
  · split <;> exact ⟨rfl, rfl⟩

/-! ## Theorems -/

/-- C7: an export over a store holding zero records produces a file
containing only the header row, and an export over a store holding `N`
records produces exactly `N` data rows after the header, in insertion
order (`get_all_weather_data` returns insertion order and
`add_weather_data_to_excel` appends one row per record, in order), each
record mapped by `recordToRow` to its thirteen documented columns A–M. -/
theorem c7_export_rows (rs : List WeatherRecord) :
    add_weather_data_to_excel (create_excel_file excelInit) (get_all_weather_data rs) =
      Except.ok ⟨some (headerRow :: rs.map recordToRow),
                 some (headerRow :: rs.map recordToRow)⟩ ∧
    (headerRow :: rs.map recordToRow).length = rs.length + 1 ∧
    headerRow.length = 13 ∧
    ∀ r : WeatherRecord, (recordToRow r).length = 13 := by
  refine ⟨rfl, by simp, rfl, fun r => rfl⟩

/-- C9: for all `rain ≥ 0`, `snow ≥ 0`, `determine_type_precipitation`
never returns the mixed category `"дождь и снег"` (its third branch
repeats the first branch's guard, so it is unreachable), and its
actual policy is: both zero → `"отсутствуют"`, rain only → `"дождь"`,
rain and snow both positive → `"снег"`. -/
theorem c9_mixed_branch_unreachable (rain snow : ℚ)
    (_hr : 0 ≤ rain) (_hs : 0 ≤ snow) :
    determine_type_precipitation rain snow ≠ "дождь и снег" ∧
    (rain = 0 → snow = 0 → determine_type_precipitation rain snow = "отсутствуют") ∧
    (0 < rain → snow = 0 → determine_type_precipitation rain snow = "дождь") ∧
    (0 < rain → 0 < snow → determine_type_precipitation rain snow = "снег") := by
  unfold determine_type_precipitation
  split_ifs with h1 h2
  · exact ⟨by decide, fun h _ => absurd (h ▸ h1.1) (lt_irrefl 0),
      fun _ h => absurd (h ▸ h1.2) (lt_irrefl 0), fun _ _ => rfl⟩
  · exact ⟨by decide, fun h _ => absurd (h ▸ h2.1) (lt_irrefl 0),
      fun _ _ => rfl, fun _ h => absurd (h2.2 ▸ h) (lt_irrefl 0)⟩
  · exact ⟨by decide, fun _ _ => rfl,
      fun hr0 hs0 => absurd ⟨hr0, hs0⟩ h2,
      fun hr0 hs0 => absurd ⟨hr0, hs0⟩ h1⟩

/-- C9 witness: the theorem applied at `rain = 0`, `snow = 0`. -/
theorem c9_mixed_branch_unreachable_witness :
    (0:ℚ) ≤ 0 ∧ determine_type_precipitation 0 0 ≠ "дождь и снег" ∧
    determine_type_precipitation 0 0 = "отсутствуют" :=
  ⟨le_refl 0, (c9_mixed_branch_unreachable 0 0 (le_refl 0) (le_refl 0)).1,
   (c9_mixed_branch_unreachable 0 0 (le_refl 0) (le_refl 0)).2.1 rfl rfl⟩

/-- C10: for every rational `degrees` (in particular every finite float,
negative or above 360), the index `round(degrees / 45) % 8` lies in
`[0, 8)`, so `directions[index]` never fails and the result is one of
the eight compass abbreviations. -/
theorem c10_direction_index_in_range (degrees : ℚ) :
    0 ≤ roundHalfEven (degrees / 45) % 8 ∧
    roundHalfEven (degrees / 45) % 8 < 8 ∧
    ∃ dir, convert_degrees_to_direction degrees = some dir ∧ dir ∈ directions := by
  have h0 : (0:ℤ) ≤ roundHalfEven (degrees / 45) % 8 :=
    Int.emod_nonneg _ (by decide)
  have h8 : roundHalfEven (degrees / 45) % 8 < 8 :=
    Int.emod_lt_of_pos _ (by decide)
  have hlt : (roundHalfEven (degrees / 45) % 8).toNat < directions.length := by
    have hlen : directions.length = 8 := rfl
    omega
  refine ⟨h0, h8, directions.get ⟨_, hlt⟩, ?_, List.get_mem _ _ _⟩
  unfold convert_degrees_to_direction
  exact List.get?_eq_get hlt

/-- C4: `menu`'s command dispatch is exact-string: `"1"` (and nothing
else) runs the export body and, when it succeeds, loops; `"2"` (and
nothing else) raises the shutdown signal and exits the loop immediately,
consuming no further input; any other line only prints the
invalid-choice message and re-enters the loop with the store, the
exporter state and the signal untouched. -/
theorem c4_command_grammar (env : MenuEnv) (s : String) (rest : List String)
    (st : MenuState) (log : List OutEvent) :
    (∀ st', exportOnce env st = (st', none) →
      menu env ("1" :: rest) st log =
        menu env rest st'
          ((log ++ [.menuPrompt]) ++ [.exportStart, .exportDone])) ∧
    (menu env ("2" :: rest) st log =
      ⟨{ st with stop := eventSet st.stop },
       (log ++ [.menuPrompt]) ++ [.exitMsg], .exited⟩) ∧
    (s ≠ "1" → s ≠ "2" →
      menu env (s :: rest) st log =
        menu env rest st ((log ++ [.menuPrompt]) ++ [.invalidMsg])) := by
  refine ⟨?_, ?_, ?_⟩
  · intro st' h
    simp [menu, h]
  · simp [menu]
  · intro h1 h2
    simp [menu, h1, h2]

/-- C4 witness: on input `"3"` the loop re-prompts with no side effect,
and on input `"2"` it raises the signal and exits. -/
theorem c4_command_grammar_witness :
    menu menuEnvOk ["3"] menuInit [] =
      menu menuEnvOk [] menuInit
        (([] ++ [OutEvent.menuPrompt]) ++ [OutEvent.invalidMsg]) ∧
    menu menuEnvOk ["2"] menuInit [] =
      ⟨{ menuInit with stop := eventSet menuInit.stop },
       ([] ++ [OutEvent.menuPrompt]) ++ [OutEvent.exitMsg], .exited⟩ :=
  ⟨(c4_command_grammar menuEnvOk "3" [] menuInit []).2.2 (by decide) (by decide),
   (c4_command_grammar menuEnvOk "2" [] menuInit []).2.1⟩

/-- C5 counterexample: with `get_all_weather_data` raising on the first
export attempt and the operator typing `"1"` then `"2"`, the command
loop does not remain in the loop: it terminates with the propagated
exception, never processes the subsequent `"2"`, and leaves the shutdown
signal unraised — the claim's "remains in the loop accepting further
commands" is false of `menu`, which has no `try`/`except` around the
export body. -/
theorem c5_counterexample :
    (menu menuEnvReadFault ["1", "2"] menuInit []).outcome =
      .raised .readFailed ∧
    (menu menuEnvReadFault ["1", "2"] menuInit []).outcome ≠ .exited ∧
    (menu menuEnvReadFault ["1", "2"] menuInit []).state.stop = false := by
  refine ⟨rfl, by decide, rfl⟩

/-- C5 amended: if the export action fails (an exception from
`create_excel_file`, `get_all_weather_data` or
`add_weather_data_to_excel`), the exception propagates out of `menu` —
the command loop terminates with that exception instead of reporting and
remaining in the loop — while the failed export still neither raises the
shutdown signal nor modifies the store. -/
theorem c5_amended_export_failure_propagates (env : MenuEnv)
    (rest : List String) (st st' : MenuState) (log : List OutEvent)
    (e : ExportError) (h : exportOnce env st = (st', some e)) :
    menu env ("1" :: rest) st log =
      ⟨st', (log ++ [.menuPrompt]) ++ [.exportStart], .raised e⟩ ∧
    st'.store = st.store ∧ st'.stop = st.stop := by
  have hp := exportOnce_store_stop env st
  rw [h] at hp
  refine ⟨?_, hp.1, hp.2⟩
  simp [menu, h]

/-- C5 amended witness: the failing-read export on a concrete state. -/
theorem c5_amended_witness :
    menu menuEnvReadFault ["1"] menuInit [] =
      ⟨{ menuInit with excel := create_excel_file menuInit.excel, attempts := 1 },
       ([] ++ [OutEvent.menuPrompt]) ++ [OutEvent.exportStart],
       .raised .readFailed⟩ :=
  (c5_amended_export_failure_propagates menuEnvReadFault []
    menuInit { menuInit with excel := create_excel_file menuInit.excel, attempts := 1 }
    [] .readFailed rfl).1

/-- C6: the shutdown signal is a plain boolean cell — raising is
idempotent (`set` twice equals `set` once), the transition is monotone
(a raised signal stays raised), there is no third state, and processing
the quit command when the signal is already raised is a no-op: `menu`
returns the state unchanged, with no error and no double side effect. -/
theorem c6_signal_idempotent :
    (∀ b, eventSet (eventSet b) = eventSet b) ∧
    (∀ b, eventIsSet b = true → eventIsSet (eventSet b) = true) ∧
    (∀ b, b = false ∨ b = true) ∧
    (∀ (env : MenuEnv) (rest : List String) (st : MenuState)
       (log : List OutEvent), st.stop = true →
      (menu env ("2" :: rest) st log).state = st) := by
  refine ⟨fun b => rfl, fun b _ => rfl, fun b => by cases b <;> simp, ?_⟩
  intro env rest st log h
  cases st
  simp_all [menu, eventSet]

/-- C6 witness: raising an already-raised signal leaves it raised, and a
second quit command on an already-raised state returns the state
unchanged. -/
theorem c6_signal_idempotent_witness :
    eventIsSet (eventSet true) = true ∧
    (menu menuEnvOk ["2"] { menuInit with stop := true } []).state =
      { menuInit with stop := true } :=
  ⟨c6_signal_idempotent.2.1 true rfl,
   c6_signal_idempotent.2.2.2 menuEnvOk [] { menuInit with stop := true } [] rfl⟩

/-- C8 counterexample: with `create_excel_file` raising on the first
export attempt and input `"1"`, `menu` terminates by an uncaught
exception with the shutdown signal still unraised — the claim that an
unrecoverable `menu` failure "still raises the shutdown signal before
the task ends" is false: no exception handler or `finally` in `menu` or
`main` sets `stop_event` on that path. -/
theorem c8_counterexample :
    (menu menuEnvCreateFault ["1"] menuInit []).outcome =
      .raised .createFailed ∧
    (menu menuEnvCreateFault ["1"] menuInit []).state.stop = false := by
  exact ⟨rfl, rfl⟩

/-- C8 amended: when `menu` terminates by an uncaught exception (or by
`input()` raising at end of input), the shutdown signal is left exactly
as it was — the signal is raised by `menu` precisely on the quit-command
exit, so a scheduler waiting on the signal is left running. -/
theorem c8_amended_stop_only_on_quit (env : MenuEnv) :
    ∀ (inputs : List String) (st : MenuState) (log : List OutEvent),
      (menu env inputs st log).state.stop =
        (st.stop || decide ((menu env inputs st log).outcome = MenuOutcome.exited)) := by
  intro inputs
  induction inputs with
  | nil => intro st log; simp [menu]
  | cons choice rest ih =>
    intro st log
    by_cases h1 : choice = "1"
    · subst h1
      rcases h : exportOnce env st with ⟨st', oe⟩
      have hp := exportOnce_store_stop env st
      rw [h] at hp
      have hpt : st'.stop = st.stop := hp.2
      cases oe with
      | none =>
        simp only [menu, h, if_true]
        rw [ih, hpt]
      | some e =>
        simp [menu, h, hpt]
    · by_cases h2 : choice = "2"
      · subst h2
        simp [menu, eventSet]
      · simp only [menu, if_neg h1, if_neg h2]
        exact ih st ((log ++ [.menuPrompt]) ++ [.invalidMsg])

/-- If the stop event is never raised, every iteration's fetch+persist
cycle runs, whatever the pattern of per-cycle failures: the
`try`/`except` confines a cycle's exception to that cycle. -/
theorem sched_cycles_always_run (env : SchedEnv) :
    ∀ (fuel n i t : Nat), env.raiseTime = none → n < fuel →
      startsCycle (fetch_and_store_weather_data env fuel i t) (i + n) = true := by
  intro fuel
  induction fuel with
  | zero => intro n i t _ hn; omega
  | succ fuel ih =>
    intro n i t hraise hn
    have hset : ∀ s, isSetAt env.raiseTime s = false := by
      intro s; rw [hraise]; rfl
    have hru : fetch_and_store_weather_data env (fuel + 1) i t =
        (if env.cycleFails i then SchedEvent.cycleFailed i t
         else SchedEvent.cycleOk i t) ::
          SchedEvent.sleepDone i (t + env.cycleDur i)
              (t + env.cycleDur i + env.frequency) ::
            fetch_and_store_weather_data env fuel (i + 1)
              (t + env.cycleDur i + env.frequency) := by
      simp [fetch_and_store_weather_data, hset]
    rw [hru]
    cases n with
    | zero =>
      cases hc : env.cycleFails i <;> simp [hc, startsCycle, isCycleEvent]
    | succ m =>
      have hrec := ih m (i + 1) (t + env.cycleDur i + env.frequency) hraise (by omega)
      have harith : i + (m + 1) = (i + 1) + m := by omega
      simp only [startsCycle, List.any_cons, Bool.or_eq_true] at hrec ⊢
      exact Or.inr (Or.inr (by rw [harith]; exact hrec))

/-- Every exit event of a scheduler trace happens at a clock time at
which the stop event is raised: the loop exits only at its two
`is_set()` checks, and only when they return `True`. -/
theorem sched_exit_only_when_raised (env : SchedEnv) :
    ∀ (fuel i t : Nat) (e : SchedEvent),
      e ∈ fetch_and_store_weather_data env fuel i t → isExitEvent e = true →
      isSetAt env.raiseTime (eventTime e) = true := by
  intro fuel
  induction fuel with
  | zero => intro i t e he _; simp [fetch_and_store_weather_data] at he
  | succ fuel ih =>
    intro i t e he hex
    by_cases h1 : isSetAt env.raiseTime t = true
    · have hru : fetch_and_store_weather_data env (fuel + 1) i t =
          [SchedEvent.exitTop i t] := by
        simp [fetch_and_store_weather_data, h1]
      rw [hru, List.mem_singleton] at he
      subst he
      simpa [eventTime] using h1
    · have h1f : isSetAt env.raiseTime t = false := by simpa using h1
      by_cases h2 : isSetAt env.raiseTime (t + env.cycleDur i) = true
      · have hru : fetch_and_store_weather_data env (fuel + 1) i t =
            [(if env.cycleFails i then SchedEvent.cycleFailed i t
              else SchedEvent.cycleOk i t),
             SchedEvent.exitPost i (t + env.cycleDur i)] := by
          simp [fetch_and_store_weather_data, h1f, h2]
        rw [hru] at he
        rcases List.mem_cons.mp he with hc | hc
        · subst hc
          cases hf : env.cycleFails i <;> simp [hf, isExitEvent] at hex
        · rw [List.mem_singleton] at hc
          subst hc
          simpa [eventTime] using h2
      · have h2f : isSetAt env.raiseTime (t + env.cycleDur i) = false := by
          simpa using h2
        have hru : fetch_and_store_weather_data env (fuel + 1) i t =
            (if env.cycleFails i then SchedEvent.cycleFailed i t
             else SchedEvent.cycleOk i t) ::
              SchedEvent.sleepDone i (t + env.cycleDur i)
                  (t + env.cycleDur i + env.frequency) ::
                fetch_and_store_weather_data env fuel (i + 1)
                  (t + env.cycleDur i + env.frequency) := by
          simp [fetch_and_store_weather_data, h1f, h2f]
        rw [hru] at he
        rcases List.mem_cons.mp he with hc | hc
        · subst hc
          cases hf : env.cycleFails i <;> simp [hf, isExitEvent] at hex
        · rcases List.mem_cons.mp hc with hc2 | hc2
          · subst hc2; simp [isExitEvent] at hex
          · exact ih (i + 1) (t + env.cycleDur i + env.frequency) e hc2 hex

/-- Every cycle and every sleep of a scheduler trace starts at a clock
time at which the stop event is not raised: the loop-head check guards
every cycle, and the post-cycle check guards every sleep. -/
theorem sched_work_starts_unraised (env : SchedEnv) :
    ∀ (fuel i t : Nat) (e : SchedEvent),
      e ∈ fetch_and_store_weather_data env fuel i t → startsWork e = true →
      isSetAt env.raiseTime (eventTime e) = false := by
  intro fuel
  induction fuel with
  | zero => intro i t e he _; simp [fetch_and_store_weather_data] at he
  | succ fuel ih =>
    intro i t e he hw
    by_cases h1 : isSetAt env.raiseTime t = true
    · have hru : fetch_and_store_weather_data env (fuel + 1) i t =
          [SchedEvent.exitTop i t] := by
        simp [fetch_and_store_weather_data, h1]
      rw [hru, List.mem_singleton] at he
      subst he
      simp [startsWork] at hw
    · have h1f : isSetAt env.raiseTime t = false := by simpa using h1
      by_cases h2 : isSetAt env.raiseTime (t + env.cycleDur i) = true
      · have hru : fetch_and_store_weather_data env (fuel + 1) i t =
            [(if env.cycleFails i then SchedEvent.cycleFailed i t
              else SchedEvent.cycleOk i t),
             SchedEvent.exitPost i (t + env.cycleDur i)] := by
          simp [fetch_and_store_weather_data, h1f, h2]
        rw [hru] at he
        rcases List.mem_cons.mp he with hc | hc
        · subst hc
          cases hf : env.cycleFails i <;> simpa [hf, eventTime] using h1f
        · rw [List.mem_singleton] at hc
          subst hc
          simp [startsWork] at hw
      · have h2f : isSetAt env.raiseTime (t + env.cycleDur i) = false := by
          simpa using h2
        have hru : fetch_and_store_weather_data env (fuel + 1) i t =
            (if env.cycleFails i then SchedEvent.cycleFailed i t
             else SchedEvent.cycleOk i t) ::
              SchedEvent.sleepDone i (t + env.cycleDur i)
                  (t + env.cycleDur i + env.frequency) ::
                fetch_and_store_weather_data env fuel (i + 1)
                  (t + env.cycleDur i + env.frequency) := by
          simp [fetch_and_store_weather_data, h1f, h2f]
        rw [hru] at he
        rcases List.mem_cons.mp he with hc | hc
        · subst hc
          cases hf : env.cycleFails i <;> simpa [hf, eventTime] using h1f
        · rcases List.mem_cons.mp hc with hc2 | hc2
          · subst hc2; simpa [eventTime] using h2f
          · exact ih (i + 1) (t + env.cycleDur i + env.frequency) e hc2 hw

/-- C1: a cycle failure is caught at the cycle boundary (the trace
records a reported `cycleFailed` event, never a propagated exception),
and the scheduler proceeds to the next iteration: with the shutdown
signal never raised, every iteration `i + n` with `n < fuel` runs its
cycle regardless of the failure pattern — in particular the loop
survives any number of consecutive failures — and the loop exits only at
a moment at which the shutdown signal is raised. -/
theorem c1_cycle_failures_isolated (env : SchedEnv) :
    (∀ (fuel n i t : Nat), env.raiseTime = none → n < fuel →
      startsCycle (fetch_and_store_weather_data env fuel i t) (i + n) = true) ∧
    (∀ (fuel i t : Nat) (e : SchedEvent),
      e ∈ fetch_and_store_weather_data env fuel i t → isExitEvent e = true →
      isSetAt env.raiseTime (eventTime e) = true) :=
  ⟨sched_cycles_always_run env, sched_exit_only_when_raised env⟩

/-- C1 witness: with the signal never raised and every cycle failing,
the third iteration's cycle still runs; and in a run that exits, the
exit's moment has the signal raised. -/
theorem c1_cycle_failures_isolated_witness :
    startsCycle (fetch_and_store_weather_data schedEnvNeverRaised 3 0 0) (0 + 2) = true ∧
    isSetAt schedEnvRaise2.raiseTime (eventTime (SchedEvent.exitTop 0 2)) = true :=
  ⟨(c1_cycle_failures_isolated schedEnvNeverRaised).1 3 2 0 0 rfl (by decide),
   (c1_cycle_failures_isolated schedEnvRaise2).2 1 0 2 (SchedEvent.exitTop 0 2)
     (by decide) rfl⟩

/-- C2 counterexample: in `schedEnvRaise1` the signal is raised at time
1, while the scheduler sleeps from time 0 to time 5 (period 5).  The
scheduler does not exit early: no exit event occurs before time 5 — it
waits out the full remaining sleep and only exits at the next loop-head
check, because `await asyncio.sleep(frequency)` does not watch
`stop_event`.  This falsifies "exits without waiting out the full
remaining period". -/
theorem c2_counterexample :
    fetch_and_store_weather_data schedEnvRaise1 2 0 0 =
      [SchedEvent.cycleOk 0 0, SchedEvent.sleepDone 0 0 5, SchedEvent.exitTop 1 5] ∧
    schedEnvRaise1.raiseTime = some 1 ∧
    schedEnvRaise1.frequency = 5 ∧
    ¬ ∃ e ∈ fetch_and_store_weather_data schedEnvRaise1 2 0 0,
        isExitEvent e = true ∧ eventTime e < 5 := by
  decide

/-- C2 amended: the inter-cycle sleep is NOT interruptible by the
shutdown signal.  If the signal is not set at the loop-head and
post-cycle checks of iteration `i` but is raised by the end of that
iteration's sleep, the scheduler completes the full `frequency`-long
sleep and exits only at iteration `i + 1`'s loop-head check, at exactly
the sleep's scheduled finish time — without starting another cycle.
Shutdown latency is therefore bounded by the full remaining sleep, not
by zero. -/
theorem c2_amended_sleep_not_interruptible (env : SchedEnv) (fuel i t : Nat)
    (h1 : isSetAt env.raiseTime t = false)
    (h2 : isSetAt env.raiseTime (t + env.cycleDur i) = false)
    (h3 : isSetAt env.raiseTime (t + env.cycleDur i + env.frequency) = true) :
    fetch_and_store_weather_data env (fuel + 2) i t =
      [(if env.cycleFails i then SchedEvent.cycleFailed i t
        else SchedEvent.cycleOk i t),
       SchedEvent.sleepDone i (t + env.cycleDur i)
         (t + env.cycleDur i + env.frequency),
       SchedEvent.exitTop (i + 1) (t + env.cycleDur i + env.frequency)] := by
  simp [fetch_and_store_weather_data, h1, h2, h3]

/-- C2 amended witness: period 3, cycle of duration 1 failing at time 0,
signal raised at time 2 (during the sleep spanning 1 to 4); the
scheduler sleeps through to time 4 and exits there. -/
theorem c2_amended_witness :
    fetch_and_store_weather_data schedEnvRaise2 2 0 0 =
      [SchedEvent.cycleFailed 0 0, SchedEvent.sleepDone 0 1 4,
       SchedEvent.exitTop 1 4] :=
  c2_amended_sleep_not_interruptible schedEnvRaise2 0 0 0 rfl rfl rfl

/-- C3: once the shutdown signal is raised, the scheduler starts no new
cycle.  (a) A signal raised at a loop-head check makes the loop exit
immediately, producing only the exit event; (b) every cycle in any trace
started at a moment at which the signal was not set (the loop condition
is checked before each cycle); (c) every sleep in any trace began at a
moment at which the signal was not set (the post-cycle check exits
before the sleep begins, on success and failure alike). -/
theorem c3_no_cycle_after_raise (env : SchedEnv) :
    (∀ (fuel i t : Nat), isSetAt env.raiseTime t = true →
      fetch_and_store_weather_data env (fuel + 1) i t = [SchedEvent.exitTop i t]) ∧
    (∀ (fuel i t n s : Nat),
      (SchedEvent.cycleOk n s ∈ fetch_and_store_weather_data env fuel i t ∨
       SchedEvent.cycleFailed n s ∈ fetch_and_store_weather_data env fuel i t) →
      isSetAt env.raiseTime s = false) ∧
    (∀ (fuel i t n s f : Nat),
      SchedEvent.sleepDone n s f ∈ fetch_and_store_weather_data env fuel i t →
      isSetAt env.raiseTime s = false) := by
  refine ⟨?_, ?_, ?_⟩
  · intro fuel i t h
    simp [fetch_and_store_weather_data, h]
  · intro fuel i t n s he
    rcases he with he | he
    · exact sched_work_starts_unraised env fuel i t _ he rfl
    · exact sched_work_starts_unraised env fuel i t _ he rfl
  · intro fuel i t n s f he
    exact sched_work_starts_unraised env fuel i t _ he rfl

/-- C3 witness: a signal already raised at time 2 makes the loop exit at
once with no cycle, and the cycle and sleep of a run that was raised
mid-sleep both started before the raise. -/
theorem c3_no_cycle_after_raise_witness :
    fetch_and_store_weather_data schedEnvRaise2 1 0 2 = [SchedEvent.exitTop 0 2] ∧
    isSetAt schedEnvRaise1.raiseTime 0 = false :=
  ⟨(c3_no_cycle_after_raise schedEnvRaise2).1 0 0 2 rfl,
   (c3_no_cycle_after_raise schedEnvRaise1).2.1 2 0 0 0 0
     (Or.inl (by decide))⟩

end Weather
